import Mathlib

/-!
Verification development for the subprocess supervisor and RPC multiplexer
(`src-tauri/src/ipc/`). Rust source structures and functions are shallowly
embedded as executable Lean definitions; machine-word overflow is immaterial
for every property below (counters and correlation ids are `u64` and only
wrap after `2^64` operations), so they are modelled as `Nat`.
-/

set_option maxRecDepth 4000

-- ============================================
-- JSON VALUE MODEL (serde_json::Value)
-- ============================================

/-- Model of `serde_json::Value`. Numbers are restricted to integers, which
covers every number the supervisor reads or writes (`u64` ids, `i32` codes). -/
inductive Json where
  | null
  | bool (b : Bool)
  | num (n : Int)
  | str (s : String)
  | arr (xs : List Json)
  | obj (fields : List (String × Json))
  deriving Repr

/-- Model of `Value::is_null`. -/
def Json.isNull : Json → Bool
  | Json.null => true
  | _ => false

/-- Field lookup in a JSON object, as serde sees the fields of a map
(first occurrence of the key; the inputs of interest have distinct keys). -/
def getField : List (String × Json) → String → Option Json
  | [], _ => none
  | (k, v) :: rest, key => if k = key then some v else getField rest key

-- ============================================
-- IPC ERROR (ipc/mod.rs, enum IpcError)
-- ============================================

/-- Model of `IpcError` from `ipc/mod.rs`. -/
inductive IpcError where
  | SpawnError (msg : String)
  | NotRunning
  | SendError (msg : String)
  | Timeout (secs : Nat)
  | SubprocessCrashed
  | RpcError (code : Int) (message : String)
  | ResponseMissing (id : Nat)
  | IoError (msg : String)
  | JsonError (msg : String)
  | RespawnFailed (attempts : Nat)
  | ChannelClosed
  | NotInitialized
  | ShuttingDown
  deriving Repr, DecidableEq

-- ============================================
-- JSON-RPC REQUEST (ipc/request.rs)
-- ============================================

/-- Model of `JsonRpcRequest` (`ipc/request.rs`): fields `jsonrpc`, `id : u64`,
`method`, `params : Value`. -/
structure JsonRpcRequest where
  jsonrpc : String
  id : Nat
  method : String
  params : Json
  deriving Repr

/-- Model of `JsonRpcRequest::new`. -/
def JsonRpcRequest.new (id : Nat) (method : String) (params : Json) : JsonRpcRequest :=
  { jsonrpc := ("2.0"), id := id, method := method, params := params }

/-- The JSON value `JsonRpcRequest::to_json` serialises (serde derive, field
order as declared; `params` carries `#[serde(skip_serializing_if = "Value::is_null")]`,
so a null `params` is omitted). `to_json` itself renders this value as a string;
the string layer is faithful and is elided. -/
def JsonRpcRequest.toJsonValue (r : JsonRpcRequest) : Json :=
  Json.obj
    ([(("jsonrpc"), Json.str r.jsonrpc), (("id"), Json.num (r.id : Int)),
      (("method"), Json.str r.method)] ++
      (if r.params.isNull then [] else [(("params"), r.params)]))

/-- The serde-derived deserialiser for `JsonRpcRequest`. `params : Value` has no
`#[serde(default)]`, so a missing `params` field is an error; `jsonrpc` and
`method` accept any string; `id` accepts a `u64`; unknown fields are ignored. -/
def JsonRpcRequest.fromJsonValue (j : Json) : Except String JsonRpcRequest :=
  match j with
  | Json.obj fs =>
    match getField fs ("jsonrpc") with
    | some (Json.str tag) =>
      (match getField fs ("id") with
       | some (Json.num n) =>
         if 0 ≤ n ∧ n < 2 ^ 64 then
           (match getField fs ("method") with
            | some (Json.str m) =>
              (match getField fs ("params") with
               | some v => Except.ok { jsonrpc := tag, id := n.toNat, method := m, params := v }
               | none => Except.error ("missing field params"))
            | some _ => Except.error ("invalid type for field method")
            | none => Except.error ("missing field method"))
         else Except.error ("invalid value for field id")
       | some _ => Except.error ("invalid type for field id")
       | none => Except.error ("missing field id"))
    | some _ => Except.error ("invalid type for field jsonrpc")
    | none => Except.error ("missing field jsonrpc")
  | _ => Except.error ("expected object")

-- ============================================
-- JSON-RPC ERROR OBJECT (ipc/response.rs)
-- ============================================

/-- Model of `JsonRpcError` (`ipc/response.rs`): `code : i32`, `message`,
optional `data`. -/
structure JsonRpcError where
  code : Int
  message : String
  data : Option Json
  deriving Repr

/-- The serde-derived deserialiser for `JsonRpcError`: `code` and `message`
required, `data : Option<Value>` defaults to `None` when missing or null. -/
def JsonRpcError.fromJsonValue (j : Json) : Except String JsonRpcError :=
  match j with
  | Json.obj fs =>
    match getField fs ("code") with
    | some (Json.num n) =>
      if -(2 ^ 31) ≤ n ∧ n < 2 ^ 31 then
        (match getField fs ("message") with
         | some (Json.str m) =>
           (match getField fs ("data") with
            | some Json.null => Except.ok { code := n, message := m, data := none }
            | some v => Except.ok { code := n, message := m, data := some v }
            | none => Except.ok { code := n, message := m, data := none })
         | some _ => Except.error ("invalid type for field message")
         | none => Except.error ("missing field message"))
      else Except.error ("invalid value for field code")
    | some _ => Except.error ("invalid type for field code")
    | none => Except.error ("missing field code")
  | _ => Except.error ("expected object")

-- ============================================
-- JSON-RPC RESPONSE (ipc/response.rs)
-- ============================================

/-- Model of `JsonRpcResponse` (`ipc/response.rs`): `id : Option<u64>`,
`result : Option<Value>`, `error : Option<JsonRpcError>`. -/
structure JsonRpcResponse where
  jsonrpc : String
  id : Option Nat
  result : Option Json
  error : Option JsonRpcError
  deriving Repr

/-- Decode the `result` and `error` fields of a response object once `jsonrpc`
and `id` have been decoded (serde semantics for the two `Option` fields:
missing and null both give `None`). -/
def JsonRpcResponse.finishDecode (fs : List (String × Json)) (tag : String) (id : Option Nat) :
    Except String JsonRpcResponse :=
  let result : Option Json :=
    match getField fs ("result") with
    | some Json.null => none
    | some v => some v
    | none => none
  match getField fs ("error") with
  | some Json.null => Except.ok { jsonrpc := tag, id := id, result := result, error := none }
  | some v =>
    (match JsonRpcError.fromJsonValue v with
     | Except.ok e => Except.ok { jsonrpc := tag, id := id, result := result, error := some e }
     | Except.error msg => Except.error msg)
  | none => Except.ok { jsonrpc := tag, id := id, result := result, error := none }

/-- The serde-derived deserialiser behind `JsonRpcResponse::from_json` and the
reader pump's `serde_json::from_str::<JsonRpcResponse>`: `jsonrpc` is a
required string; the three `Option` fields treat a missing field and JSON null
alike as `None`; unknown fields are ignored. Nothing rejects a line carrying
both `result` and `error`. -/
def JsonRpcResponse.fromJsonValue (j : Json) : Except String JsonRpcResponse :=
  match j with
  | Json.obj fs =>
    match getField fs ("jsonrpc") with
    | some (Json.str tag) =>
      (match getField fs ("id") with
       | some (Json.num n) =>
         if 0 ≤ n ∧ n < 2 ^ 64 then
           JsonRpcResponse.finishDecode fs tag (some n.toNat)
         else Except.error ("invalid value for field id")
       | some Json.null => JsonRpcResponse.finishDecode fs tag none
       | some _ => Except.error ("invalid type for field id")
       | none => JsonRpcResponse.finishDecode fs tag none)
    | some _ => Except.error ("invalid type for field jsonrpc")
    | none => Except.error ("missing field jsonrpc")
  | _ => Except.error ("expected object")

-- ============================================
-- SUBPROCESS STATE AND HEALTH MONITOR (ipc/health.rs)
-- ============================================

/-- Model of `SubprocessState` (`ipc/health.rs`). -/
inductive SubprocessState where
  | NotStarted
  | Starting
  | Running
  | Degraded
  | Restarting
  | ShuttingDown
  | Stopped
  | Crashed
  | Killed
  deriving Repr, DecidableEq

/-- Model of `HealthCheckResult`: timestamp, success flag, optional latency,
optional error text. Wall-clock timestamps are abstract `Nat` seconds and are
supplied as a `now` argument where the source calls `SystemTime::now`. -/
structure HealthCheckResult where
  creationTime : Nat
  success : Bool
  latencyMs : Option Nat
  error : Option String
  deriving Repr, DecidableEq

/-- Model of `HealthCheckResult::success`. -/
def HealthCheckResult.mkSuccess (now : Nat) (latencyMs : Nat) : HealthCheckResult :=
  { creationTime := now, success := true, latencyMs := some latencyMs, error := none }

/-- Model of `HealthCheckResult::failure`. -/
def HealthCheckResult.mkFailure (now : Nat) (error : String) : HealthCheckResult :=
  { creationTime := now, success := false, latencyMs := none, error := some error }

/-- Model of `HealthMonitor` (`ipc/health.rs`). Instants are abstract `Nat`
timestamps; atomics become plain fields of the state record. -/
structure HealthMonitor where
  state : SubprocessState
  checkIntervalSecs : Nat
  maxConsecutiveFailures : Nat
  isHealthy : Bool
  consecutiveFailures : Nat
  totalSuccesses : Nat
  totalFailures : Nat
  recentResults : List HealthCheckResult
  maxHistory : Nat
  lastSuccessTime : Option Nat
  lastLatencyMs : Option Nat
  startTime : Option Nat
  respawnAttempts : Nat
  deriving Repr, DecidableEq

/-- Model of `HealthMonitor::new`. -/
def HealthMonitor.new (checkIntervalSecs : Nat) : HealthMonitor :=
  { state := SubprocessState.NotStarted
    checkIntervalSecs := checkIntervalSecs
    maxConsecutiveFailures := 3
    isHealthy := false
    consecutiveFailures := 0
    totalSuccesses := 0
    totalFailures := 0
    recentResults := []
    maxHistory := 100
    lastSuccessTime := none
    lastLatencyMs := none
    startTime := none
    respawnAttempts := 0 }

/-- Model of `HealthMonitor::reset`: clears every counter and cached value but
leaves the `state` field alone. -/
def HealthMonitor.reset (m : HealthMonitor) : HealthMonitor :=
  { m with
    isHealthy := false
    consecutiveFailures := 0
    totalSuccesses := 0
    totalFailures := 0
    recentResults := []
    lastSuccessTime := none
    lastLatencyMs := none
    startTime := none }

/-- Model of `HealthMonitor::set_state`: store the new state, then adjust the
healthy flag and start time exactly as the `match state` in the source does
(the catch-all arm leaves everything else untouched). -/
def HealthMonitor.set_state (m : HealthMonitor) (s : SubprocessState) (now : Nat) : HealthMonitor :=
  let m1 : HealthMonitor := { m with state := s }
  match s with
  | SubprocessState.Running =>
    { m1 with
      isHealthy := true
      startTime := if m.state = SubprocessState.Starting then some now else m1.startTime }
  | SubprocessState.Degraded => { m1 with isHealthy := false }
  | SubprocessState.Crashed => { m1 with isHealthy := false }
  | SubprocessState.Killed => { m1 with isHealthy := false }
  | SubprocessState.Starting => m1.reset
  | _ => m1

/-- Model of `HealthMonitor::add_to_history`: bounded FIFO, popping the oldest
entry when the history is full. -/
def HealthMonitor.add_to_history (m : HealthMonitor) (r : HealthCheckResult) : HealthMonitor :=
  let kept := if m.maxHistory ≤ m.recentResults.length then m.recentResults.drop 1
              else m.recentResults
  { m with recentResults := kept ++ [r] }

/-- Model of `HealthMonitor::record_success`: bump successes, zero consecutive
failures, set healthy, cache latency and success time, record the sample, and
move a Degraded monitor back to Running. -/
def HealthMonitor.record_success (m : HealthMonitor) (latencyMs : Nat) (now : Nat) : HealthMonitor :=
  let m1 : HealthMonitor :=
    { m with
      totalSuccesses := m.totalSuccesses + 1
      consecutiveFailures := 0
      isHealthy := true
      lastLatencyMs := some latencyMs
      lastSuccessTime := some now }
  let m2 := m1.add_to_history (HealthCheckResult.mkSuccess now latencyMs)
  if m2.state = SubprocessState.Degraded then m2.set_state SubprocessState.Running now else m2

/-- Model of `HealthMonitor::record_failure`: bump failure counters, record the
sample, and once the consecutive count reaches the threshold clear the healthy
flag and move a Running monitor to Degraded. -/
def HealthMonitor.record_failure (m : HealthMonitor) (error : String) (now : Nat) : HealthMonitor :=
  let failures := m.consecutiveFailures + 1
  let m1 : HealthMonitor :=
    { m with
      totalFailures := m.totalFailures + 1
      consecutiveFailures := failures }
  let m2 := m1.add_to_history (HealthCheckResult.mkFailure now error)
  if m2.maxConsecutiveFailures ≤ failures then
    let m3 : HealthMonitor := { m2 with isHealthy := false }
    if m3.state = SubprocessState.Running then m3.set_state SubprocessState.Degraded now else m3
  else m2

/-- Model of `HealthMonitor::mark_started`: set the start time, then
`set_state(Running)`. -/
def HealthMonitor.mark_started (m : HealthMonitor) (now : Nat) : HealthMonitor :=
  ({ m with startTime := some now } : HealthMonitor).set_state SubprocessState.Running now

/-- Model of `HealthMonitor::mark_crashed`: `set_state(Crashed)` then
`record_failure`. -/
def HealthMonitor.mark_crashed (m : HealthMonitor) (error : String) (now : Nat) : HealthMonitor :=
  (m.set_state SubprocessState.Crashed now).record_failure error now

/-- Iterated `record_failure` with a fixed message and time: the shape of the
health-degradation experiment in the spec. -/
def HealthMonitor.applyFailures (m : HealthMonitor) (error : String) (now : Nat) : Nat → HealthMonitor
  | 0 => m
  | n + 1 => (m.applyFailures error now n).record_failure error now

-- ============================================
-- MANAGER LIFECYCLE AND CONFIGURATION (ipc/manager.rs)
-- ============================================

/-- Model of `LifecycleState` (`ipc/manager.rs`). -/
inductive LifecycleState where
  | Uninitialized
  | Starting
  | Ready
  | Degraded
  | ShuttingDown
  | Stopped
  | Failed
  deriving Repr, DecidableEq

/-- Model of `LifecycleState::can_accept_requests`. -/
def LifecycleState.can_accept_requests : LifecycleState → Bool
  | LifecycleState.Ready => true
  | LifecycleState.Degraded => true
  | _ => false

/-- Model of `IpcConfig` (`ipc/manager.rs`); the working directory is kept as a
plain optional string. -/
structure IpcConfig where
  pythonPath : String
  modulePath : String
  workingDir : Option String
  timeoutSecs : Nat
  healthCheckIntervalSecs : Nat
  autoRespawn : Bool
  maxRespawnAttempts : Nat
  verbose : Bool
  deriving Repr, DecidableEq

/-- Model of `IpcConfig::default` (`DEFAULT_TIMEOUT_SECS = 60`,
`HEALTH_CHECK_INTERVAL_SECS = 30`). -/
def IpcConfig.default : IpcConfig :=
  { pythonPath := ("python")
    modulePath := ("plugins._host")
    workingDir := none
    timeoutSecs := 60
    healthCheckIntervalSecs := 30
    autoRespawn := true
    maxRespawnAttempts := 3
    verbose := false }

-- ============================================
-- PENDING TABLE (HashMap<u64, oneshot::Sender>)
-- ============================================

/-- The pending table `HashMap<u64, oneshot::Sender<..>>` as an association
list from correlation id to an abstract sink identifier; keys are unique as in
the HashMap. -/
abbrev PendingTable : Type := List (Nat × Nat)

/-- Model of `HashMap::remove(&id)` on the pending table (for unique keys,
filtering every binding of the id is the same operation). -/
def PendingTable.removeId (p : PendingTable) (id : Nat) : PendingTable :=
  List.filter (fun e => decide (¬ e.1 = id)) p

/-- Model of looking a correlation id up in the pending table. -/
def PendingTable.lookup (p : PendingTable) (id : Nat) : Option Nat :=
  (List.find? (fun e => decide (e.1 = id)) p).map (fun e => e.2)

-- ============================================
-- PER-HANDLE MANAGER STATE AND CLONE (ipc/manager.rs)
-- ============================================

/-- The fields of `IpcManagerState` that live directly in the struct as
atomics. `impl Clone for IpcManagerState` creates FRESH atomics loaded from
the current values instead of sharing them (only the `Arc` fields - pending
table, health monitor, lifecycle, subprocess slot - are shared), so these
fields are per-handle state. -/
structure IpcManagerHandle where
  nextId : Nat
  isShuttingDown : Bool
  totalRequests : Nat
  successfulRequests : Nat
  failedRequests : Nat
  deriving Repr, DecidableEq

/-- The per-handle fields of `IpcManagerState::new`: `next_id` starts at 1,
all counters at 0. -/
def IpcManagerHandle.new : IpcManagerHandle :=
  { nextId := 1
    isShuttingDown := false
    totalRequests := 0
    successfulRequests := 0
    failedRequests := 0 }

/-- Model of `impl Clone for IpcManagerState` restricted to the per-handle
fields: each one is copied into a fresh atomic (`AtomicU64::new(load(..))`),
after which the clone's counters evolve independently of the original's. -/
def IpcManagerHandle.clone (h : IpcManagerHandle) : IpcManagerHandle :=
  { nextId := h.nextId
    isShuttingDown := h.isShuttingDown
    totalRequests := h.totalRequests
    successfulRequests := h.successfulRequests
    failedRequests := h.failedRequests }

/-- Model of `IpcManagerState::next_request_id`: `fetch_add(1)` returns the
prior value and bumps the handle's own counter. -/
def IpcManagerHandle.next_request_id (h : IpcManagerHandle) : Nat × IpcManagerHandle :=
  (h.nextId, { h with nextId := h.nextId + 1 })

-- ============================================
-- CALL COMPLETION (ipc/manager.rs, IpcManagerState::call)
-- ============================================

/-- The four ways the awaited oneshot can resolve in `call`:
`Ok(Ok(Ok(response)))`, `Ok(Ok(Err(e)))`, `Ok(Err(_))` (sender dropped) and
`Err(_)` (the `tokio::time::timeout` deadline elapsed). -/
inductive SinkOutcome where
  | response (resp : JsonRpcResponse)
  | internalError (e : IpcError)
  | channelDropped
  | deadlineElapsed
  deriving Repr

/-- Model of the outcome-handling `match` at the end of `IpcManagerState::call`
(after the request was registered under `id` and sent): counter updates,
pending-table removal, and the returned value, exactly as in the source. The
success branch increments `successful_requests` before looking at
`response.error`, so an error envelope bumps both counters. -/
def IpcManagerHandle.call_complete (h : IpcManagerHandle) (pending : PendingTable)
    (id : Nat) (config : IpcConfig) (outcome : SinkOutcome) :
    IpcManagerHandle × PendingTable × Except IpcError Json :=
  match outcome with
  | SinkOutcome.response resp =>
    let h1 : IpcManagerHandle := { h with successfulRequests := h.successfulRequests + 1 }
    (match resp.error with
     | some err =>
       ({ h1 with failedRequests := h1.failedRequests + 1 }, pending,
        Except.error (IpcError.RpcError err.code err.message))
     | none => (h1, pending, Except.ok (resp.result.getD Json.null)))
  | SinkOutcome.internalError e =>
    ({ h with failedRequests := h.failedRequests + 1 }, pending, Except.error e)
  | SinkOutcome.channelDropped =>
    ({ h with failedRequests := h.failedRequests + 1 }, pending.removeId id,
     Except.error IpcError.ChannelClosed)
  | SinkOutcome.deadlineElapsed =>
    ({ h with failedRequests := h.failedRequests + 1 }, pending.removeId id,
     Except.error (IpcError.Timeout config.timeoutSecs))

-- ============================================
-- REQUEST BUILDER AND send_builder (ipc/request.rs, ipc/manager.rs)
-- ============================================

/-- Model of `RequestBuilder`: a method name and a JSON object map of
parameters. -/
structure RequestBuilder where
  method : String
  params : List (String × Json)
  deriving Repr

/-- Model of `RequestBuilder::build`: empty parameters become `Value::Null`,
otherwise a JSON object. -/
def RequestBuilder.build (b : RequestBuilder) (id : Nat) : JsonRpcRequest :=
  let params := if b.params.isEmpty then Json.null else Json.obj b.params
  JsonRpcRequest.new id b.method params

/-- The id-allocation and request-construction prefix of
`IpcManagerState::call`: allocate a fresh correlation id and build the request
that is serialised and sent under that id. -/
def IpcManagerHandle.call_request (h : IpcManagerHandle) (method : String) (params : Json) :
    IpcManagerHandle × JsonRpcRequest :=
  let (id, h1) := h.next_request_id
  (h1, JsonRpcRequest.new id method params)

/-- Model of `IpcManagerState::send_builder`: allocate an id, build the request
with it, then hand `request.method` and `request.params` to `call`, which
allocates ANOTHER id for the request actually sent. Returns the handle after
both allocations and the request `call` sends on the wire. -/
def IpcManagerHandle.send_builder (h : IpcManagerHandle) (b : RequestBuilder) :
    IpcManagerHandle × JsonRpcRequest :=
  let (id, h1) := h.next_request_id
  let request := b.build id
  h1.call_request request.method request.params

-- ============================================
-- READER PUMP (ipc/manager.rs, IpcManagerState::reader_task)
-- ============================================

/-- The state the reader pump acts on: the shared pending table, the shared
health monitor, and the trace of values sent into oneshot sinks (a pair of the
sink identifier and the `Result<JsonRpcResponse, IpcError>` delivered). -/
structure ReaderState where
  pending : PendingTable
  health : HealthMonitor
  delivered : List (Nat × Except IpcError JsonRpcResponse)

/-- Model of one loop iteration of `reader_task` on a parsed-JSON line: decode
the response; on success, a response with an id present in the pending table
is removed and delivered to its sink, an absent id is an orphan and is
dropped; decode failures are logged and discarded. Empty lines (skipped by the
source before parsing) are simply not part of the input list. -/
def readerStep (st : ReaderState) (line : Json) : ReaderState :=
  match JsonRpcResponse.fromJsonValue line with
  | Except.ok resp =>
    (match resp.id with
     | some id =>
       (match st.pending.lookup id with
        | some sink =>
          { st with
            pending := st.pending.removeId id
            delivered := st.delivered ++ [(sink, Except.ok resp)] }
        | none => st)
     | none => st)
  | Except.error _ => st

/-- Model of the EOF epilogue of `reader_task`: `health.mark_crashed(..)`, then
drain the pending table, sending `Err(IpcError::SubprocessCrashed)` to every
remaining sink. -/
def readerOnEof (st : ReaderState) (now : Nat) : ReaderState :=
  { pending := []
    health := st.health.mark_crashed ("Subprocess stdout closed") now
    delivered :=
      st.delivered ++ st.pending.map (fun e => (e.2, Except.error IpcError.SubprocessCrashed)) }

/-- Model of the whole `reader_task`: process the stdout lines in order, then
run the EOF epilogue. -/
def reader_task (st : ReaderState) (lines : List Json) (now : Nat) : ReaderState :=
  readerOnEof (lines.foldl readerStep st) now

-- ============================================
-- SUBPROCESS HANDLE (ipc/spawn.rs)
-- ============================================

/-- Model of `ProcessState` (`ipc/spawn.rs`). -/
inductive ProcessState where
  | NotStarted
  | Running
  | Stopped
  | Crashed
  | Killed
  deriving Repr, DecidableEq

/-- Model of `SubprocessHandle` restricted to what `start` touches: which
stdio endpoints are still owned, and the process state. `spawn_plugin_host`
always produces a handle with all three endpoints present and state
`Running`. -/
structure SubprocessHandle where
  hasStdin : Bool
  hasStdout : Bool
  hasStderr : Bool
  state : ProcessState
  deriving Repr, DecidableEq

/-- Model of `SubprocessHandle::kill`: a no-op unless the child is `Running`,
in which case the process is killed and the state becomes `Killed`. -/
def SubprocessHandle.kill (h : SubprocessHandle) : SubprocessHandle :=
  if h.state = ProcessState.Running then { h with state := ProcessState.Killed } else h

/-- Model of `impl Drop for SubprocessHandle`: kill the child if the handle is
dropped while the child is `Running`. -/
def SubprocessHandle.dropHandle (h : SubprocessHandle) : SubprocessHandle :=
  if h.state = ProcessState.Running then h.kill else h

-- ============================================
-- START (ipc/manager.rs, IpcManagerState::start)
-- ============================================

/-- The environment `start` runs against: the outcome of `spawn_plugin_host`
(`none` = spawn error) and whether each `std::thread::Builder::spawn` call
succeeds. -/
structure StartEnv where
  spawnResult : Option SubprocessHandle
  writerThreadOk : Bool
  readerThreadOk : Bool
  stderrThreadOk : Bool
  deriving Repr, DecidableEq

/-- Everything observable after `start` returns: its `Result`, the lifecycle
slot, the health monitor, the spawned child's handle state (`none` when no
child was ever spawned; on an early return the local handle has been dropped),
and whether the handle was stored in the manager's subprocess slot. -/
structure StartResult where
  result : Except IpcError Unit
  lifecycle : LifecycleState
  health : HealthMonitor
  child : Option SubprocessHandle
  stored : Bool

/-- An early return from `start` after the child was spawned: the local
`handle` binding is dropped (killing a still-running child), the lifecycle is
left as it was last set (`Starting`), and the error is returned. -/
def startEarlyReturn (health : HealthMonitor) (msg : String) (handle : SubprocessHandle) :
    StartResult :=
  { result := Except.error (IpcError.SpawnError msg)
    lifecycle := LifecycleState.Starting
    health := health
    child := some handle.dropHandle
    stored := false }

/-- Model of `IpcManagerState::start`: guard on the current lifecycle, move to
`Starting` (manager and monitor), spawn, take the three stdio endpoints, spawn
the three pump threads, then store the handle, `mark_started` the monitor and
move to `Ready`. Every failure after the spawn is an early `?`-return that
drops the local handle. -/
def IpcManagerState.start (lifecycle : LifecycleState) (health : HealthMonitor)
    (env : StartEnv) (now : Nat) : StartResult :=
  if ¬ (lifecycle = LifecycleState.Uninitialized ∨ lifecycle = LifecycleState.Stopped) then
    { result := Except.error (IpcError.SpawnError ("Cannot start from state"))
      lifecycle := lifecycle
      health := health
      child := none
      stored := false }
  else
    let health1 := health.set_state SubprocessState.Starting now
    match env.spawnResult with
    | none =>
      { result := Except.error (IpcError.SpawnError ("Failed to spawn subprocess"))
        lifecycle := LifecycleState.Starting
        health := health1
        child := none
        stored := false }
    | some handle0 =>
      if ¬ handle0.hasStdin then
        startEarlyReturn health1 ("Failed to get stdin") { handle0 with hasStdin := false }
      else
        let handle1 : SubprocessHandle := { handle0 with hasStdin := false }
        if ¬ handle1.hasStdout then
          startEarlyReturn health1 ("Failed to get stdout") { handle1 with hasStdout := false }
        else
          let handle2 : SubprocessHandle := { handle1 with hasStdout := false }
          if ¬ handle2.hasStderr then
            startEarlyReturn health1 ("Failed to get stderr") { handle2 with hasStderr := false }
          else
            let handle3 : SubprocessHandle := { handle2 with hasStderr := false }
            if ¬ env.writerThreadOk then
              startEarlyReturn health1 ("thread spawn failed") handle3
            else if ¬ env.readerThreadOk then
              startEarlyReturn health1 ("thread spawn failed") handle3
            else if ¬ env.stderrThreadOk then
              startEarlyReturn health1 ("thread spawn failed") handle3
            else
              { result := Except.ok ()
                lifecycle := LifecycleState.Ready
                health := health1.mark_started now
                child := some handle3
                stored := true }

-- ============================================
-- HELPER LEMMAS
-- ============================================

/-- A failure recorded while the monitor is not in `Running` never changes the
state field: the Degraded transition inside `record_failure` is guarded by
`state == Running`. -/
theorem HealthMonitor.record_failure_state_of_not_running (m : HealthMonitor)
    (error : String) (now : Nat) (hm : ¬ m.state = SubprocessState.Running) :
    (m.record_failure error now).state = m.state := by
  simp only [HealthMonitor.record_failure, HealthMonitor.add_to_history]
  split
  · simp [hm]
  · rfl

/-- While the consecutive-failure count stays strictly below the threshold,
iterated `record_failure` from `Running` leaves the state, the healthy flag
and the threshold untouched and counts up by one each time. -/
theorem HealthMonitor.applyFailures_below_threshold (error : String) (now : Nat) :
    ∀ (n : Nat) (m : HealthMonitor), m.state = SubprocessState.Running →
      m.consecutiveFailures + n < m.maxConsecutiveFailures →
      ((m.applyFailures error now n).state = SubprocessState.Running ∧
       (m.applyFailures error now n).consecutiveFailures = m.consecutiveFailures + n ∧
       (m.applyFailures error now n).maxConsecutiveFailures = m.maxConsecutiveFailures ∧
       (m.applyFailures error now n).isHealthy = m.isHealthy) := by
  intro n
  induction n with
  | zero =>
    intro m hs hlt
    exact ⟨hs, by simp [HealthMonitor.applyFailures], rfl, rfl⟩
  | succ n ih =>
    intro m hs hlt
    have hlt' : m.consecutiveFailures + n < m.maxConsecutiveFailures := by omega
    obtain ⟨h1, h2, h3, h4⟩ := ih m hs hlt'
    have hstep : m.applyFailures error now (n + 1)
        = (m.applyFailures error now n).record_failure error now := rfl
    rw [hstep]
    simp only [HealthMonitor.record_failure, HealthMonitor.add_to_history]
    rw [if_neg (by simp only [h2, h3]; omega)]
    exact ⟨h1, by simp only [h2]; omega, h3, h4⟩

/-- Looking a correlation id up after it has been removed from the pending
table finds nothing. -/
theorem PendingTable.lookup_removeId (p : PendingTable) (id : Nat) :
    PendingTable.lookup (p.removeId id) id = none := by
  induction p with
  | nil => rfl
  | cons e rest ih =>
    by_cases he : e.1 = id
    · simp [PendingTable.removeId, PendingTable.lookup, he]
    · simp [PendingTable.removeId, PendingTable.lookup, he]

-- ============================================
-- CLAIM THEOREMS
-- ============================================

/-- A response line carrying BOTH a `result` field and an `error` field. -/
def bothFieldsResponseLine : Json :=
  Json.obj
    [(("jsonrpc"), Json.str ("2.0")), (("id"), Json.num 1),
     (("result"), Json.num 42),
     (("error"), Json.obj [(("code"), Json.num (-32601)),
                           (("message"), Json.str ("Method not found"))])]

/-- Claim C7: the claim states that decoding a response line carrying both a
`result` field and an `error` field fails. Evaluating the decoder at such a
line shows that it SUCCEEDS, producing a response value with both fields
populated: the serde-derived deserialiser never checks the mutual-exclusion
invariant that the type's own documentation states. -/
theorem decode_accepts_result_and_error :
    JsonRpcResponse.fromJsonValue bothFieldsResponseLine =
      Except.ok
        { jsonrpc := ("2.0"), id := some 1, result := some (Json.num 42),
          error := some { code := -32601, message := ("Method not found"), data := none } } := by
  rfl

/-- Claim C2: the claim states that correlation ids are never allocated twice,
including across cloned supervisor handles. Evaluating the model of
`impl Clone for IpcManagerState` at a fresh supervisor shows the opposite:
the clone receives a FRESH counter seeded with the current value, so a call
through the original and a call through the clone both allocate id 1; likewise
a clone taken after one call allocates 2, the same id the original's next
call allocates. -/
theorem clone_duplicates_correlation_id :
    (IpcManagerHandle.new.next_request_id).1 = 1 ∧
    ((IpcManagerHandle.new.clone).next_request_id).1 = 1 ∧
    (((IpcManagerHandle.new.next_request_id).2.next_request_id).1 = 2) ∧
    ((((IpcManagerHandle.new.next_request_id).2.clone).next_request_id).1 = 2) := by
  exact ⟨rfl, rfl, rfl, rfl⟩

/-- Claim C9 counterexample: the claim states that entering `ShuttingDown` via
`set_state` clears the healthy flag. Starting from a healthy Running monitor,
`set_state(ShuttingDown)` leaves the flag TRUE: `ShuttingDown` falls into the
catch-all arm of the `match` in the source, which touches nothing. -/
theorem set_state_shuttingdown_keeps_healthy :
    (((HealthMonitor.new 30).set_state SubprocessState.Running 0).isHealthy = true) ∧
    ((((HealthMonitor.new 30).set_state SubprocessState.Running 0).set_state
        SubprocessState.ShuttingDown 1).isHealthy = true) := by
  exact ⟨rfl, rfl⟩

/-- Claim C9 (amended): every `set_state` transition entering `Degraded`,
`Crashed` or `Killed` clears the monitor's healthy flag; entering
`ShuttingDown` leaves the flag unchanged. -/
theorem set_state_degraded_crashed_killed_clears_healthy (m : HealthMonitor)
    (s : SubprocessState) (now : Nat)
    (hs : s = SubprocessState.Degraded ∨ s = SubprocessState.Crashed ∨
          s = SubprocessState.Killed) :
    (m.set_state s now).isHealthy = false ∧
    (m.set_state SubprocessState.ShuttingDown now).isHealthy = m.isHealthy := by
  refine ⟨?_, rfl⟩
  rcases hs with h | h | h <;> rw [h] <;> rfl

/-- Witness for the amended claim C9 at a concrete healthy monitor and the
state `Killed`. -/
theorem set_state_degraded_crashed_killed_clears_healthy_witness :
    (SubprocessState.Killed = SubprocessState.Degraded ∨
     SubprocessState.Killed = SubprocessState.Crashed ∨
     SubprocessState.Killed = SubprocessState.Killed) ∧
    ((((HealthMonitor.new 30).set_state SubprocessState.Running 0).set_state
        SubprocessState.Killed 1).isHealthy = false ∧
     (((HealthMonitor.new 30).set_state SubprocessState.Running 0).set_state
        SubprocessState.ShuttingDown 1).isHealthy =
       ((HealthMonitor.new 30).set_state SubprocessState.Running 0).isHealthy) := by
  exact ⟨Or.inr (Or.inr rfl),
    set_state_degraded_crashed_killed_clears_healthy
      ((HealthMonitor.new 30).set_state SubprocessState.Running 0)
      SubprocessState.Killed 1 (Or.inr (Or.inr rfl))⟩

/-- Claim C10: `send_builder` consumes two correlation ids per invocation: it
allocates `h.nextId` for the discarded `builder.build` result, and the inner
`call` allocates `h.nextId + 1` for the request actually sent, so the counter
advances by two and the discarded id never appears on the wire (the wire ids
skip a value). The method and parameters of the sent request are the ones the
builder produced. -/
theorem send_builder_consumes_two_ids (h : IpcManagerHandle) (b : RequestBuilder) :
    ((h.send_builder b).2.id = h.nextId + 1 ∧
     (b.build h.nextId).id = h.nextId ∧
     (h.send_builder b).1.nextId = h.nextId + 2) ∧
    ((h.send_builder b).2.method = b.method ∧
     (h.send_builder b).2.params = (b.build h.nextId).params) := by
  refine ⟨⟨rfl, rfl, ?_⟩, rfl, rfl⟩
  show h.nextId + 1 + 1 = h.nextId + 2
  omega

/-- Claim C6 counterexample: the claim states that `decode(encode(r)) = r` for
every valid request, including null `params`. For the valid request
`{id := 1, method := "ping", params := null}` the encoder omits the `params`
field (`skip_serializing_if = "Value::is_null"`), and the serde-derived
decoder then FAILS with a missing-field error, because `params : Value`
carries no `#[serde(default)]`. -/
theorem request_null_params_roundtrip_fails :
    JsonRpcRequest.fromJsonValue
        (JsonRpcRequest.toJsonValue (JsonRpcRequest.new 1 ("ping") Json.null)) =
      Except.error ("missing field params") := by
  rfl

/-- Claim C6 (amended): for every valid request whose `params` is NOT null
(and whose id fits in a `u64`), decoding the encoded form yields the request
back unchanged; when `params` is null the encoded form omits the field and
decoding it fails with a missing-field error. -/
theorem request_roundtrip (r : JsonRpcRequest) (hid : r.id < 2 ^ 64)
    (hp : r.params.isNull = false) :
    JsonRpcRequest.fromJsonValue (JsonRpcRequest.toJsonValue r) = Except.ok r ∧
    (∀ r0 : JsonRpcRequest, r0.id < 2 ^ 64 → r0.params.isNull = true →
      JsonRpcRequest.fromJsonValue (JsonRpcRequest.toJsonValue r0) =
        Except.error ("missing field params")) := by
  constructor
  · obtain ⟨tag, id, method, params⟩ := r
    simp only [JsonRpcRequest.toJsonValue] at hp ⊢
    rw [hp]
    have h0 : (0 : Int) ≤ (id : Int) := Int.ofNat_nonneg id
    have h1 : (id : Int) < 2 ^ 64 := by exact_mod_cast hid
    simp [JsonRpcRequest.fromJsonValue, getField, h0, h1]
    exact hid
  · intro r0 hid0 hp0
    obtain ⟨tag, id, method, params⟩ := r0
    simp only [JsonRpcRequest.toJsonValue]
    rw [hp0]
    have h0 : (0 : Int) ≤ (id : Int) := Int.ofNat_nonneg id
    have h1 : (id : Int) < 2 ^ 64 := by exact_mod_cast hid0
    simp [JsonRpcRequest.fromJsonValue, getField, h0, h1]
    exact hid0

/-- Witness for the amended claim C6 at the concrete request
`{id := 7, method := "echo", params := 3}` and, for the null-params half, at
`{id := 1, method := "ping", params := null}`. -/
theorem request_roundtrip_witness :
    ((JsonRpcRequest.new 7 ("echo") (Json.num 3)).id < 2 ^ 64 ∧
     (JsonRpcRequest.new 7 ("echo") (Json.num 3)).params.isNull = false) ∧
    (JsonRpcRequest.fromJsonValue
        (JsonRpcRequest.toJsonValue (JsonRpcRequest.new 7 ("echo") (Json.num 3))) =
       Except.ok (JsonRpcRequest.new 7 ("echo") (Json.num 3)) ∧
     (∀ r0 : JsonRpcRequest, r0.id < 2 ^ 64 → r0.params.isNull = true →
       JsonRpcRequest.fromJsonValue (JsonRpcRequest.toJsonValue r0) =
         Except.error ("missing field params"))) := by
  exact ⟨⟨by decide, rfl⟩,
    request_roundtrip (JsonRpcRequest.new 7 ("echo") (Json.num 3)) (by decide) rfl⟩

/-- The error envelope of the spec's concrete scenario 2: the child answers
with code `-32601`, message `"Method not found"`. -/
def methodNotFoundResponse : JsonRpcResponse :=
  { jsonrpc := ("2.0"), id := some 1, result := none,
    error := some { code := -32601, message := ("Method not found"), data := none } }

/-- Claim C3 counterexample: the claim states that a call completing with an
error envelope increments the failed-request counter AND NOT the
successful-request counter. Evaluating the completion path of
`IpcManagerState::call` on a fresh handle (both counters 0) shows the
successful-request counter is bumped to 1 as well: the source increments
`successful_requests` as soon as a response is delivered, before inspecting
`response.error`. -/
theorem call_error_envelope_counterexample :
    IpcManagerHandle.new.successfulRequests = 0 ∧
    (IpcManagerHandle.new.call_complete [] 1 IpcConfig.default
        (SinkOutcome.response methodNotFoundResponse)).1.successfulRequests = 1 ∧
    (IpcManagerHandle.new.call_complete [] 1 IpcConfig.default
        (SinkOutcome.response methodNotFoundResponse)).1.failedRequests = 1 ∧
    (IpcManagerHandle.new.call_complete [] 1 IpcConfig.default
        (SinkOutcome.response methodNotFoundResponse)).2.2 =
      Except.error (IpcError.RpcError (-32601) ("Method not found")) := by
  exact ⟨rfl, rfl, rfl, rfl⟩

/-- Claim C3 (amended): for every call whose sink delivers a well-formed error
envelope, the call increments BOTH the successful-request counter (bumped on
any delivered response) and the failed-request counter, and fails with
rpc-error carrying the envelope's code and message; the pending table is not
touched on this path. -/
theorem call_error_envelope (h : IpcManagerHandle) (pending : PendingTable) (id : Nat)
    (config : IpcConfig) (resp : JsonRpcResponse) (err : JsonRpcError)
    (he : resp.error = some err) :
    (h.call_complete pending id config (SinkOutcome.response resp)).1.failedRequests =
      h.failedRequests + 1 ∧
    (h.call_complete pending id config (SinkOutcome.response resp)).1.successfulRequests =
      h.successfulRequests + 1 ∧
    (h.call_complete pending id config (SinkOutcome.response resp)).2.2 =
      Except.error (IpcError.RpcError err.code err.message) ∧
    (h.call_complete pending id config (SinkOutcome.response resp)).2.1 = pending := by
  simp [IpcManagerHandle.call_complete, he]

/-- Witness for the amended claim C3 at a fresh handle and the concrete
method-not-found envelope. -/
theorem call_error_envelope_witness :
    methodNotFoundResponse.error =
      some { code := -32601, message := ("Method not found"), data := none } ∧
    ((IpcManagerHandle.new.call_complete [] 1 IpcConfig.default
        (SinkOutcome.response methodNotFoundResponse)).1.failedRequests =
       IpcManagerHandle.new.failedRequests + 1 ∧
     (IpcManagerHandle.new.call_complete [] 1 IpcConfig.default
        (SinkOutcome.response methodNotFoundResponse)).1.successfulRequests =
       IpcManagerHandle.new.successfulRequests + 1 ∧
     (IpcManagerHandle.new.call_complete [] 1 IpcConfig.default
        (SinkOutcome.response methodNotFoundResponse)).2.2 =
       Except.error (IpcError.RpcError (-32601) ("Method not found")) ∧
     (IpcManagerHandle.new.call_complete [] 1 IpcConfig.default
        (SinkOutcome.response methodNotFoundResponse)).2.1 = ([] : PendingTable)) := by
  exact ⟨rfl,
    call_error_envelope IpcManagerHandle.new [] 1 IpcConfig.default methodNotFoundResponse
      { code := -32601, message := ("Method not found"), data := none } rfl⟩

/-- Claim C4: when the per-call deadline elapses, `call` removes its entry from
the pending table, increments the failed-request counter and returns
`Timeout(config.timeout_secs)`; since the entry is gone, a later parsed
response carrying that id finds nothing in the table and the reader treats it
as an orphan, changing nothing (it is logged and dropped, not delivered). -/
theorem call_timeout_removes_pending (h : IpcManagerHandle) (pending : PendingTable)
    (id : Nat) (config : IpcConfig) :
    (h.call_complete pending id config SinkOutcome.deadlineElapsed).2.1 =
      pending.removeId id ∧
    PendingTable.lookup
      ((h.call_complete pending id config SinkOutcome.deadlineElapsed).2.1) id = none ∧
    (h.call_complete pending id config SinkOutcome.deadlineElapsed).1.failedRequests =
      h.failedRequests + 1 ∧
    (h.call_complete pending id config SinkOutcome.deadlineElapsed).2.2 =
      Except.error (IpcError.Timeout config.timeoutSecs) ∧
    (∀ (st : ReaderState) (line : Json) (resp : JsonRpcResponse),
      st.pending = (h.call_complete pending id config SinkOutcome.deadlineElapsed).2.1 →
      JsonRpcResponse.fromJsonValue line = Except.ok resp →
      resp.id = some id →
      readerStep st line = st) := by
  refine ⟨rfl, ?_, rfl, rfl, ?_⟩
  · exact PendingTable.lookup_removeId pending id
  · intro st line resp hpend hdec hid
    have hlook : PendingTable.lookup st.pending id = none := by
      rw [hpend]
      exact PendingTable.lookup_removeId pending id
    simp [readerStep, hdec, hid, hlook]

/-- Witness for claim C4 at a concrete pending table holding entries for ids
5 and 6, a timed-out call with id 5, the default configuration, and a late
response line for id 5. -/
theorem call_timeout_removes_pending_witness :
    (IpcManagerHandle.new.call_complete [(5, 50), (6, 60)] 5 IpcConfig.default
        SinkOutcome.deadlineElapsed).2.1 = PendingTable.removeId [(5, 50), (6, 60)] 5 ∧
    PendingTable.lookup
      ((IpcManagerHandle.new.call_complete [(5, 50), (6, 60)] 5 IpcConfig.default
          SinkOutcome.deadlineElapsed).2.1) 5 = none ∧
    (IpcManagerHandle.new.call_complete [(5, 50), (6, 60)] 5 IpcConfig.default
        SinkOutcome.deadlineElapsed).1.failedRequests = IpcManagerHandle.new.failedRequests + 1 ∧
    (IpcManagerHandle.new.call_complete [(5, 50), (6, 60)] 5 IpcConfig.default
        SinkOutcome.deadlineElapsed).2.2 = Except.error (IpcError.Timeout 60) ∧
    readerStep
        { pending := [(6, 60)], health := HealthMonitor.new 30, delivered := [] }
        (Json.obj [(("jsonrpc"), Json.str ("2.0")), (("id"), Json.num 5),
                   (("result"), Json.num 1)]) =
      { pending := [(6, 60)], health := HealthMonitor.new 30, delivered := [] } := by
  have h := call_timeout_removes_pending IpcManagerHandle.new [(5, 50), (6, 60)] 5
    IpcConfig.default
  exact ⟨h.1, h.2.1, h.2.2.1, h.2.2.2.1,
    h.2.2.2.2 { pending := [(6, 60)], health := HealthMonitor.new 30, delivered := [] }
      (Json.obj [(("jsonrpc"), Json.str ("2.0")), (("id"), Json.num 5),
                 (("result"), Json.num 1)])
      { jsonrpc := ("2.0"), id := some 5, result := some (Json.num 1), error := none }
      (by rfl) (by rfl) (by rfl)⟩

/-- Claim C1: when the reader pump observes EOF on child stdout, it marks the
subprocess `Crashed` via the health monitor (`mark_crashed` sets the state to
`Crashed`; the failure it then records cannot leave `Crashed`), and every sink
still in the pending table at that moment is delivered
`Err(IpcError::SubprocessCrashed)`; afterwards the pending table is empty. -/
theorem reader_eof_crash_fanout (st : ReaderState) (lines : List Json) (now : Nat) :
    (reader_task st lines now).pending = [] ∧
    (reader_task st lines now).health.state = SubprocessState.Crashed ∧
    (∀ e ∈ (List.foldl readerStep st lines).pending,
      (e.2, (Except.error IpcError.SubprocessCrashed : Except IpcError JsonRpcResponse)) ∈
        (reader_task st lines now).delivered) := by
  refine ⟨rfl, ?_, ?_⟩
  · show (((List.foldl readerStep st lines).health.set_state SubprocessState.Crashed
        now).record_failure _ now).state = SubprocessState.Crashed
    rw [HealthMonitor.record_failure_state_of_not_running]
    · rfl
    · intro hcontra
      exact absurd hcontra (by simp [HealthMonitor.set_state])
  · intro e he
    show _ ∈ (List.foldl readerStep st lines).delivered ++
      ((List.foldl readerStep st lines).pending.map
        (fun e => (e.2, Except.error IpcError.SubprocessCrashed)))
    exact List.mem_append_right _ (List.mem_map_of_mem _ he)

/-- Witness for claim C1 at a reader state holding two pending entries (sinks
10 and 20), an input with one delivered response (id 1), one orphan line and
one unparsable line, observing EOF afterwards. -/
def readerWitnessStart : ReaderState :=
  { pending := [(1, 10), (2, 20), (3, 30)]
    health := (HealthMonitor.new 30).mark_started 0
    delivered := [] }

/-- The stdout lines of the C1 witness scenario: a response for pending id 1,
an orphan response for id 9, and a line that fails to decode. -/
def readerWitnessLines : List Json :=
  [Json.obj [(("jsonrpc"), Json.str ("2.0")), (("id"), Json.num 1), (("result"), Json.num 1)],
   Json.obj [(("jsonrpc"), Json.str ("2.0")), (("id"), Json.num 9), (("result"), Json.num 9)],
   Json.str ("not a response")]

/-- Witness for claim C1: after the reader drains, the pending table is empty,
the monitor reports `Crashed`, and both sinks that were still pending at EOF
(20 and 30) received the subprocess-crashed error. -/
theorem reader_eof_crash_fanout_witness :
    (reader_task readerWitnessStart readerWitnessLines 7).pending = [] ∧
    (reader_task readerWitnessStart readerWitnessLines 7).health.state =
      SubprocessState.Crashed ∧
    (((20 : Nat), (Except.error IpcError.SubprocessCrashed :
        Except IpcError JsonRpcResponse)) ∈
      (reader_task readerWitnessStart readerWitnessLines 7).delivered ∧
     ((30 : Nat), (Except.error IpcError.SubprocessCrashed :
        Except IpcError JsonRpcResponse)) ∈
      (reader_task readerWitnessStart readerWitnessLines 7).delivered) := by
  have h := reader_eof_crash_fanout readerWitnessStart readerWitnessLines 7
  refine ⟨h.1, h.2.1, ?_, ?_⟩
  · exact h.2.2 (2, 20) (by decide)
  · exact h.2.2 (3, 30) (by decide)

/-- Claim C5: with failure threshold `T` (default 3), a Running monitor with no
consecutive failures reaches `Degraded` and not-healthy after exactly `T`
`record_failure` calls, and a subsequent `record_success` zeroes the
consecutive-failure count, restores `Running` and reports healthy again. -/
theorem health_degradation_recovery (m : HealthMonitor) (T : Nat) (error : String)
    (now latencyMs now2 : Nat)
    (hs : m.state = SubprocessState.Running)
    (hc : m.consecutiveFailures = 0)
    (hT : m.maxConsecutiveFailures = T)
    (hpos : 0 < T) :
    ((m.applyFailures error now T).state = SubprocessState.Degraded ∧
     (m.applyFailures error now T).isHealthy = false) ∧
    (((m.applyFailures error now T).record_success latencyMs now2).consecutiveFailures = 0 ∧
     ((m.applyFailures error now T).record_success latencyMs now2).state =
       SubprocessState.Running ∧
     ((m.applyFailures error now T).record_success latencyMs now2).isHealthy = true) := by
  obtain ⟨n, rfl⟩ : ∃ n, T = n + 1 := ⟨T - 1, by omega⟩
  have hlt : m.consecutiveFailures + n < m.maxConsecutiveFailures := by omega
  obtain ⟨h1, h2, h3, h4⟩ := HealthMonitor.applyFailures_below_threshold error now n m hs hlt
  have hstep : m.applyFailures error now (n + 1)
      = (m.applyFailures error now n).record_failure error now := rfl
  rw [hstep]
  simp [HealthMonitor.record_failure, HealthMonitor.add_to_history,
        HealthMonitor.set_state, HealthMonitor.record_success,
        h1, h2, h3, h4, hc, hT]

/-- Witness for claim C5 at a fresh monitor moved to `Running` and the default
threshold 3. -/
theorem health_degradation_recovery_witness :
    (((HealthMonitor.new 30).set_state SubprocessState.Running 0).state =
       SubprocessState.Running ∧
     ((HealthMonitor.new 30).set_state SubprocessState.Running 0).consecutiveFailures = 0 ∧
     ((HealthMonitor.new 30).set_state SubprocessState.Running 0).maxConsecutiveFailures = 3 ∧
     0 < 3) ∧
    (((((HealthMonitor.new 30).set_state SubprocessState.Running 0).applyFailures
          ("health check timed out") 1 3).state = SubprocessState.Degraded ∧
      ((((HealthMonitor.new 30).set_state SubprocessState.Running 0).applyFailures
          ("health check timed out") 1 3)).isHealthy = false) ∧
     (((((HealthMonitor.new 30).set_state SubprocessState.Running 0).applyFailures
          ("health check timed out") 1 3).record_success 50 2).consecutiveFailures = 0 ∧
      ((((HealthMonitor.new 30).set_state SubprocessState.Running 0).applyFailures
          ("health check timed out") 1 3).record_success 50 2).state =
        SubprocessState.Running ∧
      ((((HealthMonitor.new 30).set_state SubprocessState.Running 0).applyFailures
          ("health check timed out") 1 3).record_success 50 2).isHealthy = true)) := by
  exact ⟨⟨rfl, rfl, rfl, by decide⟩,
    health_degradation_recovery ((HealthMonitor.new 30).set_state SubprocessState.Running 0)
      3 ("health check timed out") 1 50 2 rfl rfl rfl (by decide)⟩

/-- Boolean success check on the `Result` that `start` returns. -/
def startResultOk : Except IpcError Unit → Bool
  | Except.ok _ => true
  | Except.error _ => false

/-- The handle `spawn_plugin_host` produces on success: all three stdio
endpoints present, state `Running`. -/
def spawnedHandle : SubprocessHandle :=
  { hasStdin := true, hasStdout := true, hasStderr := true, state := ProcessState.Running }

/-- A start environment in which the spawn succeeds but launching the writer
pump thread fails. -/
def writerThreadFailEnv : StartEnv :=
  { spawnResult := some spawnedHandle
    writerThreadOk := false
    readerThreadOk := true
    stderrThreadOk := true }

/-- Claim C8 counterexample: the claim states that a failure after the child
has been spawned transitions the supervisor lifecycle to `Failed` before the
error returns. Evaluating `start` from `Uninitialized` in an environment where
the writer-thread launch fails shows the child IS killed (by the dropped
handle), but the lifecycle is left at `Starting`: no `Failed` transition
exists anywhere in `start`. -/
theorem start_failure_lifecycle_not_failed :
    startResultOk
        (IpcManagerState.start LifecycleState.Uninitialized (HealthMonitor.new 30)
          writerThreadFailEnv 0).result = false ∧
    ((IpcManagerState.start LifecycleState.Uninitialized (HealthMonitor.new 30)
        writerThreadFailEnv 0).child.map SubprocessHandle.state) =
      some ProcessState.Killed ∧
    (IpcManagerState.start LifecycleState.Uninitialized (HealthMonitor.new 30)
        writerThreadFailEnv 0).lifecycle = LifecycleState.Starting ∧
    ¬ (IpcManagerState.start LifecycleState.Uninitialized (HealthMonitor.new 30)
        writerThreadFailEnv 0).lifecycle = LifecycleState.Failed := by
  exact ⟨rfl, rfl, rfl, by decide⟩

/-- Claim C8 (amended): during `start`, if any step after the child has been
spawned fails (a stdio endpoint is missing or a pump-thread launch fails),
`start` kills the child (the early return drops the local handle, whose `Drop`
kills a still-running child) and returns the error, but the supervisor
lifecycle REMAINS `Starting`: it is not transitioned to `Failed`. -/
theorem start_post_spawn_failure_kills_child (lifecycle : LifecycleState)
    (health : HealthMonitor) (env : StartEnv) (now : Nat) (handle : SubprocessHandle)
    (hguard : lifecycle = LifecycleState.Uninitialized ∨ lifecycle = LifecycleState.Stopped)
    (hspawn : env.spawnResult = some handle)
    (hrun : handle.state = ProcessState.Running)
    (hfail : handle.hasStdin = false ∨ handle.hasStdout = false ∨ handle.hasStderr = false ∨
             env.writerThreadOk = false ∨ env.readerThreadOk = false ∨
             env.stderrThreadOk = false) :
    startResultOk (IpcManagerState.start lifecycle health env now).result = false ∧
    ((IpcManagerState.start lifecycle health env now).child.map SubprocessHandle.state) =
      some ProcessState.Killed ∧
    (IpcManagerState.start lifecycle health env now).lifecycle = LifecycleState.Starting ∧
    (IpcManagerState.start lifecycle health env now).stored = false := by
  obtain ⟨spawnR, wOk, rOk, sOk⟩ := env
  obtain ⟨si, so, se, hst⟩ := handle
  simp only at hspawn hrun hfail
  subst hrun
  subst hspawn
  rcases hguard with hg | hg <;> subst hg <;>
    cases si <;> cases so <;> cases se <;> cases wOk <;> cases rOk <;> cases sOk <;>
    simp_all [IpcManagerState.start, startEarlyReturn, SubprocessHandle.dropHandle,
      SubprocessHandle.kill, startResultOk]

/-- Witness for the amended claim C8 at the concrete writer-thread-failure
environment, starting from `Uninitialized`. -/
theorem start_post_spawn_failure_kills_child_witness :
    (LifecycleState.Uninitialized = LifecycleState.Uninitialized ∨
     LifecycleState.Uninitialized = LifecycleState.Stopped) ∧
    writerThreadFailEnv.spawnResult = some spawnedHandle ∧
    spawnedHandle.state = ProcessState.Running ∧
    (spawnedHandle.hasStdin = false ∨ spawnedHandle.hasStdout = false ∨
     spawnedHandle.hasStderr = false ∨ writerThreadFailEnv.writerThreadOk = false ∨
     writerThreadFailEnv.readerThreadOk = false ∨
     writerThreadFailEnv.stderrThreadOk = false) ∧
    (startResultOk
        (IpcManagerState.start LifecycleState.Uninitialized (HealthMonitor.new 60)
          writerThreadFailEnv 5).result = false ∧
     ((IpcManagerState.start LifecycleState.Uninitialized (HealthMonitor.new 60)
         writerThreadFailEnv 5).child.map SubprocessHandle.state) =
       some ProcessState.Killed ∧
     (IpcManagerState.start LifecycleState.Uninitialized (HealthMonitor.new 60)
         writerThreadFailEnv 5).lifecycle = LifecycleState.Starting ∧
     (IpcManagerState.start LifecycleState.Uninitialized (HealthMonitor.new 60)
         writerThreadFailEnv 5).stored = false) := by
  exact ⟨Or.inl rfl, rfl, rfl, Or.inr (Or.inr (Or.inr (Or.inl rfl))),
    start_post_spawn_failure_kills_child LifecycleState.Uninitialized (HealthMonitor.new 60)
      writerThreadFailEnv 5 spawnedHandle (Or.inl rfl) rfl rfl
      (Or.inr (Or.inr (Or.inr (Or.inl rfl))))⟩
